import Mathlib

/-!
Verification of the CARLA scenario scripts (CarlaDemoScript repository).

This file shallowly embeds the numerically and behaviourally interesting
parts of the Python scripts over exact rationals:

* `get_intrinsic_matrix` and `project_world_to_image`
  (src/junction_points.py),
* the junction aggregation `junction_dict` / `get_junction_centers`
  (src/junction_points.py),
* the windowed brake/throttle rule of the game loops
  (src/demo1.py, src/npc_only.py),
* the teardown sequences of the scenarios (stop/destroy order and
  idempotence),
* the single-slot frame buffer realised by the `surface` closure
  variable,
* the `spawn_vehicle_safe` helper
  (src/ego_npc_dual_view_traffic_light_after_3s.py).

Floating point arithmetic is modelled by `ℚ`; `np.tan(np.radians(fov)/2)`
is an external numeric-library call and enters the embedding as an
explicit parameter `tanHalfFov`.
-/

/-- A 3-component vector over `ℚ` (models a numpy length-3 array and
`carla.Location`). -/
structure Vec3 where
  x : ℚ
  y : ℚ
  z : ℚ
deriving DecidableEq, Repr

/-- A 4-component homogeneous vector over `ℚ`. -/
structure Vec4 where
  x : ℚ
  y : ℚ
  z : ℚ
  w : ℚ
deriving DecidableEq, Repr

/-- Dot product of two `Vec3`. -/
def Vec3.dot (a b : Vec3) : ℚ :=
  a.x * b.x + a.y * b.y + a.z * b.z

/-- Dot product of two `Vec4`. -/
def Vec4.dot (a b : Vec4) : ℚ :=
  a.x * b.x + a.y * b.y + a.z * b.z + a.w * b.w

/-- A 3×3 matrix over `ℚ`, stored as rows. -/
structure Mat3 where
  r0 : Vec3
  r1 : Vec3
  r2 : Vec3
deriving DecidableEq, Repr

/-- A 4×4 matrix over `ℚ`, stored as rows. -/
structure Mat4 where
  r0 : Vec4
  r1 : Vec4
  r2 : Vec4
  r3 : Vec4
deriving DecidableEq, Repr

/-- Matrix-vector product (`K @ v` in numpy). -/
def Mat3.mulVec (m : Mat3) (v : Vec3) : Vec3 :=
  ⟨m.r0.dot v, m.r1.dot v, m.r2.dot v⟩

/-- Matrix-vector product for 4×4 matrices (`M @ p` in numpy). -/
def Mat4.mulVec (m : Mat4) (v : Vec4) : Vec4 :=
  ⟨m.r0.dot v, m.r1.dot v, m.r2.dot v, m.r3.dot v⟩

/-- The 3×3 identity matrix (`np.identity(3)`). -/
def identity3 : Mat3 :=
  ⟨⟨1, 0, 0⟩, ⟨0, 1, 0⟩, ⟨0, 0, 1⟩⟩

/-- The 4×4 identity matrix. -/
def identity4 : Mat4 :=
  ⟨⟨1, 0, 0, 0⟩, ⟨0, 1, 0, 0⟩, ⟨0, 0, 1, 0⟩, ⟨0, 0, 0, 1⟩⟩

/-- Python's `int()` applied to a real number: truncation toward zero
(floor for nonnegative arguments, negated floor of the negation
otherwise). -/
def pyInt (q : ℚ) : ℤ :=
  if 0 ≤ q then ⌊q⌋ else -⌊-q⌋

/-- Rounding to the nearest integer (the behaviour the spec ascribes to
the projection; used to compare against the code's `int()`). -/
def roundNearest (q : ℚ) : ℤ :=
  round q

/-- `get_intrinsic_matrix(width, height, fov)` from src/junction_points.py:
starts from `np.identity(3)` and overwrites the four pinhole entries.
`tanHalfFov` stands for `np.tan(np.radians(fov) / 2)`, i.e.
`tan(fov·π/360)`, which the Python code obtains from numpy. -/
def get_intrinsic_matrix (width height tanHalfFov : ℚ) : Mat3 :=
  let focal := width / (2 * tanHalfFov)
  let K := identity3
  let K := { K with r0 := { K.r0 with x := focal } }
  let K := { K with r1 := { K.r1 with y := focal } }
  let K := { K with r0 := { K.r0 with z := width / 2 } }
  let K := { K with r1 := { K.r1 with z := height / 2 } }
  K

/-- The camera-local vector after the UE4 → conventional-camera axis
remap in `project_world_to_image`: the world point is taken to
homogeneous coordinates, multiplied by the world-to-camera matrix, and
its components are permuted to `(y, -z, x)`. -/
def cameraLocal (world_location : Vec3) (world_2_camera : Mat4) : Vec3 :=
  let point : Vec4 := ⟨world_location.x, world_location.y, world_location.z, 1⟩
  let point_camera := world_2_camera.mulVec point
  ⟨point_camera.y, -point_camera.z, point_camera.x⟩

/-- The camera-forward component of the camera-local point (component 2
after the axis remap, i.e. the x component of the transformed point). -/
def cameraForward (world_location : Vec3) (world_2_camera : Mat4) : ℚ :=
  (cameraLocal world_location world_2_camera).z

/-- `project_world_to_image(world_location, camera, K)` from
src/junction_points.py.  The Python code obtains `world_2_camera` as
`camera.get_transform().get_inverse_matrix()` from the simulator; the
embedding takes that matrix as an argument.  Returns `none` for the
Python `None` and otherwise the pixel pair
`(int(point_img[0]), int(point_img[1]))`. -/
def project_world_to_image (world_location : Vec3) (world_2_camera : Mat4)
    (K : Mat3) : Option (ℤ × ℤ) :=
  let point_camera := cameraLocal world_location world_2_camera
  if point_camera.z ≤ 0 then
    none
  else
    let point_img := K.mulVec point_camera
    let point_img : Vec3 :=
      ⟨point_img.x / point_img.z, point_img.y / point_img.z,
       point_img.z / point_img.z⟩
    some (pyInt point_img.x, pyInt point_img.y)

/-- Modelled from the spec: the projection as the spec describes it in
claim C2, identical to `project_world_to_image` except that the final
coordinates are rounded to the nearest integer instead of truncated
toward zero. -/
def project_world_to_image_rounded (world_location : Vec3)
    (world_2_camera : Mat4) (K : Mat3) : Option (ℤ × ℤ) :=
  let point_camera := cameraLocal world_location world_2_camera
  if point_camera.z ≤ 0 then
    none
  else
    let point_img := K.mulVec point_camera
    let point_img : Vec3 :=
      ⟨point_img.x / point_img.z, point_img.y / point_img.z,
       point_img.z / point_img.z⟩
    some (roundNearest point_img.x, roundNearest point_img.y)

/-- Claim C4: `get_intrinsic_matrix` returns a 3×3 matrix whose `[0,0]`
and `[1,1]` entries are `width / (2·tan(fov·π/360))` (here
`tanHalfFov = tan(fov·π/360)`), whose `[0,2]` entry is `width/2`, whose
`[1,2]` entry is `height/2`, and whose remaining entries are those of
the identity matrix, for all positive width, height and field of view. -/
theorem C4_intrinsic_entries (width height tanHalfFov : ℚ)
    (_hw : 0 < width) (_hh : 0 < height) (_ht : 0 < tanHalfFov) :
    (get_intrinsic_matrix width height tanHalfFov).r0.x = width / (2 * tanHalfFov) ∧
    (get_intrinsic_matrix width height tanHalfFov).r1.y = width / (2 * tanHalfFov) ∧
    (get_intrinsic_matrix width height tanHalfFov).r0.z = width / 2 ∧
    (get_intrinsic_matrix width height tanHalfFov).r1.z = height / 2 ∧
    (get_intrinsic_matrix width height tanHalfFov).r0.y = 0 ∧
    (get_intrinsic_matrix width height tanHalfFov).r1.x = 0 ∧
    (get_intrinsic_matrix width height tanHalfFov).r2 = ⟨0, 0, 1⟩ :=
  ⟨rfl, rfl, rfl, rfl, rfl, rfl, rfl⟩

/-- Witness for C4 at width 2, height 3, tanHalfFov 1. -/
theorem C4_intrinsic_entries_witness :
    ((0 : ℚ) < 2 ∧ (0 : ℚ) < 3 ∧ (0 : ℚ) < 1) ∧
    ((get_intrinsic_matrix 2 3 1).r0.x = 2 / (2 * 1) ∧
     (get_intrinsic_matrix 2 3 1).r1.y = 2 / (2 * 1) ∧
     (get_intrinsic_matrix 2 3 1).r0.z = 2 / 2 ∧
     (get_intrinsic_matrix 2 3 1).r1.z = 3 / 2 ∧
     (get_intrinsic_matrix 2 3 1).r0.y = 0 ∧
     (get_intrinsic_matrix 2 3 1).r1.x = 0 ∧
     (get_intrinsic_matrix 2 3 1).r2 = ⟨0, 0, 1⟩) :=
  ⟨⟨by norm_num, by norm_num, by norm_num⟩,
   C4_intrinsic_entries 2 3 1 (by norm_num) (by norm_num) (by norm_num)⟩

/-- Claim C3: the projection returns the invalid result (`none`) exactly
when the camera-forward component is ≤ 0, and returns a pixel pair
exactly when the forward component is strictly positive; the perspective
division only happens in the positive branch. -/
theorem C3_invalid_iff_behind (wl : Vec3) (w2c : Mat4) (K : Mat3) :
    (project_world_to_image wl w2c K = none ↔ cameraForward wl w2c ≤ 0) ∧
    (0 < cameraForward wl w2c ↔
      ∃ p : ℤ × ℤ, project_world_to_image wl w2c K = some p) := by
  unfold project_world_to_image cameraForward
  by_cases h : (cameraLocal wl w2c).z ≤ 0
  · simp [h, not_lt.mpr h]
  · simp [h, lt_of_not_le h]

/-- Counterexample to claim C2: at a concrete input with strictly
positive forward component the code truncates (`int()`) rather than
rounding to the nearest pixel: the actual result is `(1, 1)` while the
round-to-nearest behaviour the claim describes gives `(2, 1)`. -/
theorem C2_rounding_cex :
    0 < cameraForward ⟨1, 9/10, 0⟩ identity4 ∧
    project_world_to_image ⟨1, 9/10, 0⟩ identity4 (get_intrinsic_matrix 2 2 1)
      = some (1, 1) ∧
    project_world_to_image_rounded ⟨1, 9/10, 0⟩ identity4
      (get_intrinsic_matrix 2 2 1) = some (2, 1) := by
  refine ⟨by norm_num [cameraForward, cameraLocal, identity4, Mat4.mulVec, Vec4.dot], ?_, ?_⟩
  · norm_num [project_world_to_image, cameraLocal, get_intrinsic_matrix,
      identity3, identity4, Mat3.mulVec, Mat4.mulVec, Vec3.dot, Vec4.dot, pyInt]
  · norm_num [project_world_to_image_rounded, cameraLocal, get_intrinsic_matrix,
      identity3, identity4, Mat3.mulVec, Mat4.mulVec, Vec3.dot, Vec4.dot,
      roundNearest, round_eq]

/-- Claim C2 (amended): for intrinsic matrices built by
`get_intrinsic_matrix`, when the camera-forward component is strictly
positive the projection multiplies the camera-local vector by the
intrinsic matrix, perspective-divides by the forward component, and
truncates each resulting coordinate toward zero (Python `int()`), not
rounding to the nearest integer. -/
theorem C2_projection_truncates (wl : Vec3) (w2c : Mat4)
    (width height tanHalfFov : ℚ) (h : 0 < cameraForward wl w2c) :
    project_world_to_image wl w2c (get_intrinsic_matrix width height tanHalfFov) =
      some
        (pyInt (width / (2 * tanHalfFov) * (cameraLocal wl w2c).x /
            cameraForward wl w2c + width / 2),
         pyInt (width / (2 * tanHalfFov) * (cameraLocal wl w2c).y /
            cameraForward wl w2c + height / 2)) := by
  have hz : (cameraLocal wl w2c).z ≠ 0 := ne_of_gt h
  unfold cameraForward at h ⊢
  unfold project_world_to_image
  rw [if_neg (not_le.mpr h)]
  simp only [get_intrinsic_matrix, identity3, Mat3.mulVec, Vec3.dot, zero_mul,
    mul_zero, zero_add, add_zero, one_mul]
  rw [add_div, mul_div_cancel_right₀ _ hz, add_div, mul_div_cancel_right₀ _ hz]

/-- Witness for the amended C2 at the concrete input of the
counterexample. -/
theorem C2_projection_truncates_witness :
    0 < cameraForward ⟨1, 9/10, 0⟩ identity4 ∧
    project_world_to_image ⟨1, 9/10, 0⟩ identity4 (get_intrinsic_matrix 2 2 1) =
      some
        (pyInt ((2 : ℚ) / (2 * 1) * (cameraLocal ⟨1, 9/10, 0⟩ identity4).x /
            cameraForward ⟨1, 9/10, 0⟩ identity4 + 2 / 2),
         pyInt ((2 : ℚ) / (2 * 1) * (cameraLocal ⟨1, 9/10, 0⟩ identity4).y /
            cameraForward ⟨1, 9/10, 0⟩ identity4 + 2 / 2)) :=
  ⟨by norm_num [cameraForward, cameraLocal, identity4, Mat4.mulVec, Vec4.dot],
   C2_projection_truncates ⟨1, 9/10, 0⟩ identity4 2 2 1
     (by norm_num [cameraForward, cameraLocal, identity4, Mat4.mulVec, Vec4.dot])⟩

/-!
## Junction aggregation (`get_junction_centers`, src/junction_points.py)
-/

/-- A CARLA topology waypoint as consumed by `get_junction_centers`:
the `is_junction` flag, the id of the junction it belongs to (only
meaningful when the flag is set; the Python code only calls
`get_junction().id` behind the flag), and its transform's location. -/
structure Waypoint where
  isJunction : Bool
  junctionId : ℤ
  location : Vec3
deriving DecidableEq, Repr

/-- A topology segment: a pair of waypoints `(wp_start, wp_end)`. -/
abbrev Segment := Waypoint × Waypoint

/-- Appending a location under a junction id into the accumulator,
modelling the Python dict operations
`if jid not in junction_dict: junction_dict[jid] = []` followed by
`junction_dict[jid].append(loc)` on an insertion-ordered dict
(association list with unique keys, first-seen order). -/
def dictAppend : List (ℤ × List Vec3) → ℤ → Vec3 → List (ℤ × List Vec3)
  | [], jid, loc => [(jid, [loc])]
  | p :: rest, jid, loc =>
    if p.1 = jid then (p.1, p.2 ++ [loc]) :: rest
    else p :: dictAppend rest jid loc

/-- The accumulation loop of `get_junction_centers`: for each segment
`(wp_start, wp_end)` of the topology, if `wp_start.is_junction` then
append `wp_start.transform.location` under `wp_start`'s junction id.
(The loop never looks at `wp_end`.) -/
def junction_dict (topology : List Segment) : List (ℤ × List Vec3) :=
  topology.foldl
    (fun d seg =>
      if seg.1.isJunction then dictAppend d seg.1.junctionId seg.1.location
      else d)
    []

/-- Lookup of the accumulated position list of a junction id
(`junction_dict[jid]`, defaulting to the empty list for absent ids). -/
def dictFind : List (ℤ × List Vec3) → ℤ → List Vec3
  | [], _ => []
  | p :: rest, jid => if p.1 = jid then p.2 else dictFind rest jid

/-- The centroid loop of `get_junction_centers`: for each accumulated
id, the center has `x = sum(xs)/len(xs)` and similarly for `y`, `z`,
where `xs = [l.x for l in locs]` and so on. -/
def get_junction_centers (topology : List Segment) : List (ℤ × Vec3) :=
  (junction_dict topology).map (fun p =>
    let xs := p.2.map Vec3.x
    let ys := p.2.map Vec3.y
    let zs := p.2.map Vec3.z
    (p.1, ⟨xs.sum / (xs.length : ℚ), ys.sum / (ys.length : ℚ),
           zs.sum / (zs.length : ℚ)⟩))

/-- Modelled from the spec (claim C1): the positions of all segment
endpoints — start and end — flagged as junction members and carrying
junction id `jid`, in traversal order. -/
def flaggedPositionsBothEnds (topology : List Segment) (jid : ℤ) : List Vec3 :=
  topology.foldl
    (fun acc seg =>
      let acc :=
        if seg.1.isJunction ∧ seg.1.junctionId = jid then acc ++ [seg.1.location]
        else acc
      if seg.2.isJunction ∧ seg.2.junctionId = jid then acc ++ [seg.2.location]
      else acc)
    []

/-- The positions of the flagged start endpoints carrying id `jid`, in
traversal order: what the code actually accumulates. -/
def startFlaggedPositions (topology : List Segment) (jid : ℤ) : List Vec3 :=
  topology.filterMap (fun seg =>
    if seg.1.isJunction ∧ seg.1.junctionId = jid then some seg.1.location
    else none)

theorem dictFind_dictAppend (d : List (ℤ × List Vec3)) (j jid : ℤ) (l : Vec3) :
    dictFind (dictAppend d j l) jid =
      dictFind d jid ++ (if j = jid then [l] else []) := by
  induction d with
  | nil =>
    by_cases hj : j = jid <;> simp [dictAppend, dictFind, hj]
  | cons p rest ih =>
    by_cases hp : p.1 = j
    · by_cases hq : p.1 = jid
      · have hj : j = jid := by rw [← hp, hq]
        simp [dictAppend, dictFind, hp, hq, hj]
      · have hj : ¬ j = jid := fun h => hq (by rw [hp, h])
        simp [dictAppend, dictFind, hp, hq, hj]
    · by_cases hq : p.1 = jid
      · have hj : ¬ j = jid := fun h => hp (hq.trans h.symm)
        have hj2 : ¬ jid = j := fun h => hp (hq.trans h)
        simp [dictAppend, dictFind, hp, hq, hj, hj2]
      · simp [dictAppend, dictFind, hp, hq, ih]

theorem dictFind_junction_loop (topology : List Segment)
    (d : List (ℤ × List Vec3)) (jid : ℤ) :
    dictFind
        (topology.foldl
          (fun d seg =>
            if seg.1.isJunction then dictAppend d seg.1.junctionId seg.1.location
            else d)
          d) jid
      = dictFind d jid ++ startFlaggedPositions topology jid := by
  induction topology generalizing d with
  | nil => simp [startFlaggedPositions]
  | cons seg rest ih =>
    rw [List.foldl_cons, ih]
    by_cases hflag : seg.1.isJunction = true
    · by_cases hid : seg.1.junctionId = jid
      · simp [hflag, hid, dictFind_dictAppend, startFlaggedPositions,
          List.filterMap_cons]
      · simp [hflag, hid, dictFind_dictAppend, startFlaggedPositions,
          List.filterMap_cons]
    · simp [hflag, startFlaggedPositions, List.filterMap_cons]

/-- Claim C1 (amended): the per-id accumulator of `get_junction_centers`
collects exactly the positions of the flagged START endpoints carrying
that id, in traversal order; the end endpoint of a segment is never
examined. -/
theorem C1_start_endpoints_only (topology : List Segment) (jid : ℤ) :
    dictFind (junction_dict topology) jid = startFlaggedPositions topology jid := by
  rw [junction_dict, dictFind_junction_loop]
  simp [dictFind]

/-- A segment whose start endpoint is not flagged but whose end endpoint
is flagged as a member of junction 0 at position `(1, 2, 3)`. -/
def cexSegment : Segment :=
  (⟨false, 0, ⟨0, 0, 0⟩⟩, ⟨true, 0, ⟨1, 2, 3⟩⟩)

/-- Counterexample to claim C1: on a topology consisting of the single
segment `cexSegment`, the code accumulates nothing (the flagged end
endpoint is ignored), while the claim requires position `(1, 2, 3)` to
be accumulated under id 0. -/
theorem C1_both_ends_cex :
    dictFind (junction_dict [cexSegment]) 0 = [] ∧
    flaggedPositionsBothEnds [cexSegment] 0 = [⟨1, 2, 3⟩] ∧
    ¬ (∀ jid : ℤ, dictFind (junction_dict [cexSegment]) jid =
        flaggedPositionsBothEnds [cexSegment] jid) := by
  have h1 : dictFind (junction_dict [cexSegment]) 0 = [] := rfl
  have h2 : flaggedPositionsBothEnds [cexSegment] 0 = [⟨1, 2, 3⟩] := rfl
  refine ⟨h1, h2, fun h => ?_⟩
  have h0 := h 0
  rw [h1, h2] at h0
  simp at h0

/-- Modelled from the spec (claim C6): elementwise arithmetic mean (of
x, y and z separately) of a list of positions. -/
def specMean (locs : List Vec3) : Vec3 :=
  ⟨(locs.map Vec3.x).sum / (locs.length : ℚ),
   (locs.map Vec3.y).sum / (locs.length : ℚ),
   (locs.map Vec3.z).sum / (locs.length : ℚ)⟩

theorem dictAppend_entries_nonempty (d : List (ℤ × List Vec3)) (j : ℤ)
    (l : Vec3) (hd : ∀ p ∈ d, p.2 ≠ []) :
    ∀ p ∈ dictAppend d j l, p.2 ≠ [] := by
  induction d with
  | nil =>
    intro p hp
    simp [dictAppend] at hp
    simp [hp]
  | cons q rest ih =>
    intro p hp
    by_cases hq : q.1 = j
    · rw [dictAppend, if_pos hq] at hp
      rcases List.mem_cons.mp hp with h | h
      · simp [h]
      · exact hd p (List.mem_cons_of_mem q h)
    · rw [dictAppend, if_neg hq] at hp
      rcases List.mem_cons.mp hp with h | h
      · exact h ▸ hd q (List.mem_cons_self q rest)
      · exact ih (fun r hr => hd r (List.mem_cons_of_mem q hr)) p h

theorem junction_loop_entries_nonempty (topology : List Segment)
    (d : List (ℤ × List Vec3)) (hd : ∀ p ∈ d, p.2 ≠ []) :
    ∀ p ∈ topology.foldl
        (fun d seg =>
          if seg.1.isJunction then dictAppend d seg.1.junctionId seg.1.location
          else d)
        d, p.2 ≠ [] := by
  induction topology generalizing d with
  | nil => simpa using hd
  | cons seg rest ih =>
    rw [List.foldl_cons]
    apply ih
    by_cases hflag : seg.1.isJunction = true
    · rw [if_pos hflag]
      exact dictAppend_entries_nonempty d _ _ hd
    · rw [if_neg hflag]
      exact hd

theorem junction_dict_entries_nonempty (topology : List Segment) :
    ∀ p ∈ junction_dict topology, p.2 ≠ [] := by
  rw [junction_dict]
  exact junction_loop_entries_nonempty topology [] (by simp)

/-- Claim C6: every `(id, centroid)` pair that `get_junction_centers`
produces derives its centroid as the elementwise arithmetic mean of the
(nonempty) list of positions accumulated for that id. -/
theorem C6_centroid_is_mean (topology : List Segment) (jid : ℤ) (c : Vec3)
    (h : (jid, c) ∈ get_junction_centers topology) :
    ∃ locs, (jid, locs) ∈ junction_dict topology ∧ locs ≠ [] ∧
      c = specMean locs := by
  simp only [get_junction_centers, List.mem_map] at h
  obtain ⟨p, hp, heq⟩ := h
  injection heq with h1 h2
  refine ⟨p.2, ?_, junction_dict_entries_nonempty topology p hp, ?_⟩
  · rw [← h1]
    exact hp
  · rw [← h2]
    simp [specMean, List.length_map]

/-- The three-point topology of the spec's centroid test: three segments
whose start endpoints are flagged members of junction 7 at positions
`(0,0,0)`, `(2,0,0)` and `(1,2,0)`; end endpoints unflagged. -/
def topoThreePoints : List Segment :=
  [(⟨true, 7, ⟨0, 0, 0⟩⟩, ⟨false, 0, ⟨0, 0, 0⟩⟩),
   (⟨true, 7, ⟨2, 0, 0⟩⟩, ⟨false, 0, ⟨0, 0, 0⟩⟩),
   (⟨true, 7, ⟨1, 2, 0⟩⟩, ⟨false, 0, ⟨0, 0, 0⟩⟩)]

/-- Witness for C6: on `topoThreePoints` the centroid of junction 7 is
exactly `(1, 2/3, 0)`, and it is the elementwise mean of the
accumulated positions. -/
theorem C6_centroid_is_mean_witness :
    (7, (⟨1, 2/3, 0⟩ : Vec3)) ∈ get_junction_centers topoThreePoints ∧
    ∃ locs, (7, locs) ∈ junction_dict topoThreePoints ∧ locs ≠ [] ∧
      (⟨1, 2/3, 0⟩ : Vec3) = specMean locs := by
  have hmem : (7, (⟨1, 2/3, 0⟩ : Vec3)) ∈ get_junction_centers topoThreePoints := by
    have hd : junction_dict topoThreePoints =
        [(7, [⟨0, 0, 0⟩, ⟨2, 0, 0⟩, ⟨1, 2, 0⟩])] := rfl
    simp only [get_junction_centers, hd, List.map_cons, List.map_nil]
    norm_num
  exact ⟨hmem, C6_centroid_is_mean topoThreePoints 7 ⟨1, 2/3, 0⟩ hmem⟩

/-!
## Windowed brake/throttle rule (src/demo1.py, src/npc_only.py)
-/

/-- A CARLA `VehicleControl(throttle=..., brake=...)` value. -/
structure VehicleControl where
  throttle : ℚ
  brake : ℚ
deriving DecidableEq, Repr

/-- `TOTAL_TIME = 20.0` in demo1.py and npc_only.py. -/
def TOTAL_TIME : ℚ := 20

/-- `RED_START = 5.0` in demo1.py and npc_only.py. -/
def RED_START : ℚ := 5

/-- `RED_END = 10.0` in demo1.py and npc_only.py. -/
def RED_END : ℚ := 10

/-- One iteration of the demo1.py game loop, as a function of the
elapsed scenario time: `none` models the `break` to teardown taken when
`elapsed >= TOTAL_TIME` before any control is applied; otherwise the
control applied to the ego vehicle (full brake inside the red window,
throttle 0.6 outside it). -/
def demo1_iteration (elapsed : ℚ) : Option VehicleControl :=
  if TOTAL_TIME ≤ elapsed then none
  else if RED_START ≤ elapsed ∧ elapsed < RED_END then some ⟨0, 1⟩
  else some ⟨0.6, 0⟩

/-- One iteration of the npc_only.py game loop (the same rule, applied
to every NPC, with throttle 0.5 outside the window). -/
def npc_only_iteration (elapsed : ℚ) : Option VehicleControl :=
  if TOTAL_TIME ≤ elapsed then none
  else if RED_START ≤ elapsed ∧ elapsed < RED_END then some ⟨0, 1⟩
  else some ⟨0.5, 0⟩

/-- Claim C5: with `RED_START = 5`, `RED_END = 10`, `TOTAL_TIME = 20`,
both loops apply full brake exactly when `RED_START ≤ elapsed < RED_END`,
apply (positive) throttle with no brake otherwise, and exit without
applying any control once `elapsed ≥ TOTAL_TIME`. -/
theorem C5_control_rule (elapsed : ℚ) :
    (TOTAL_TIME ≤ elapsed →
      demo1_iteration elapsed = none ∧ npc_only_iteration elapsed = none) ∧
    (elapsed < TOTAL_TIME →
      ((RED_START ≤ elapsed ∧ elapsed < RED_END) →
        demo1_iteration elapsed = some ⟨0, 1⟩ ∧
        npc_only_iteration elapsed = some ⟨0, 1⟩) ∧
      (¬ (RED_START ≤ elapsed ∧ elapsed < RED_END) →
        demo1_iteration elapsed = some ⟨0.6, 0⟩ ∧
        npc_only_iteration elapsed = some ⟨0.5, 0⟩)) := by
  unfold demo1_iteration npc_only_iteration
  refine ⟨fun h => ?_, fun h => ⟨fun hw => ?_, fun hw => ?_⟩⟩
  · rw [if_pos h, if_pos h]
    exact ⟨rfl, rfl⟩
  · rw [if_neg (not_le.mpr h), if_neg (not_le.mpr h), if_pos hw, if_pos hw]
    exact ⟨rfl, rfl⟩
  · rw [if_neg (not_le.mpr h), if_neg (not_le.mpr h), if_neg hw, if_neg hw]
    exact ⟨rfl, rfl⟩

/-- Witness for C5 at the boundary `elapsed = 5`: the brake window has
just begun, so both loops brake fully. -/
theorem C5_control_rule_witness :
    ((5 : ℚ) < TOTAL_TIME ∧ (RED_START ≤ (5 : ℚ) ∧ (5 : ℚ) < RED_END)) ∧
    (demo1_iteration 5 = some ⟨0, 1⟩ ∧ npc_only_iteration 5 = some ⟨0, 1⟩) :=
  ⟨⟨by norm_num [TOTAL_TIME], by norm_num [RED_START], by norm_num [RED_END]⟩,
   ((C5_control_rule 5).2 (by norm_num [TOTAL_TIME])).1
     ⟨by norm_num [RED_START], by norm_num [RED_END]⟩⟩

/-!
## Teardown order: sensors are stopped before destruction (claim C7)
-/

/-- The actors appearing in the teardown sequences of the scenarios. -/
inductive ActorId where
  | camera
  | egoVehicle
  | egoCam
  | birdCam
  | npc
deriving DecidableEq, Repr

/-- One step of a teardown sequence: `sensor.stop()` or
`actor.destroy()`. -/
inductive CleanupAction where
  | sensorStopOf (a : ActorId)
  | actorDestroyOf (a : ActorId)
deriving DecidableEq, Repr

/-- The `finally` teardown of demo1.py:
`camera.stop(); camera.destroy(); ego_vehicle.destroy()`. -/
def cleanup_demo1 : List CleanupAction :=
  [.sensorStopOf .camera, .actorDestroyOf .camera, .actorDestroyOf .egoVehicle]

/-- The `finally` teardown of junction_points.py:
`camera.stop(); camera.destroy(); ego_vehicle.destroy()`. -/
def cleanup_junction_points : List CleanupAction :=
  [.sensorStopOf .camera, .actorDestroyOf .camera, .actorDestroyOf .egoVehicle]

/-- The `finally` teardown of ego_npc_dual_view_traffic_light_after_3s.py:
first every sensor in the actors list is stopped, then every actor still
alive is destroyed (actors list order: ego vehicle, npc, ego camera,
bird camera). -/
def cleanup_dual_view : List CleanupAction :=
  [.sensorStopOf .egoCam, .sensorStopOf .birdCam,
   .actorDestroyOf .egoVehicle, .actorDestroyOf .npc,
   .actorDestroyOf .egoCam, .actorDestroyOf .birdCam]

/-- The `finally` teardown of demo_1_with_NPC_traces.py:
`ego_cam.destroy(); bird_cam.destroy(); ego_vehicle.destroy()` and the
NPC destruction loop — no `stop()` call anywhere. -/
def cleanup_traces : List CleanupAction :=
  [.actorDestroyOf .egoCam, .actorDestroyOf .birdCam,
   .actorDestroyOf .egoVehicle, .actorDestroyOf .npc]

/-- The `finally` teardown of splitting_into_2_window.py:
`ego_cam.destroy(); bird_cam.destroy(); ego_vehicle.destroy()` and the
NPC destruction loop — no `stop()` call anywhere. -/
def cleanup_splitting : List CleanupAction :=
  [.actorDestroyOf .egoCam, .actorDestroyOf .birdCam,
   .actorDestroyOf .egoVehicle, .actorDestroyOf .npc]

/-- Sensor `s` is stopped strictly before it is destroyed in trace
`tr`: every destruction of `s` is preceded by a stop of `s`. -/
def stoppedBeforeDestroyed (tr : List CleanupAction) (s : ActorId) : Prop :=
  ∀ i : Fin tr.length, tr.get i = .actorDestroyOf s →
    CleanupAction.sensorStopOf s ∈ tr.take i

instance (tr : List CleanupAction) (s : ActorId) :
    Decidable (stoppedBeforeDestroyed tr s) := by
  unfold stoppedBeforeDestroyed
  infer_instance

/-- Claim C7 evaluated on the teardown sequences: demo1.py,
junction_points.py and ego_npc_dual_view_traffic_light_after_3s.py stop
every camera sensor strictly before destroying it, but
demo_1_with_NPC_traces.py and splitting_into_2_window.py destroy both of
their still-listening cameras without ever stopping them, refuting the
claim for those scenarios. -/
theorem C7_sensors_destroyed_while_listening :
    stoppedBeforeDestroyed cleanup_demo1 .camera ∧
    stoppedBeforeDestroyed cleanup_junction_points .camera ∧
    stoppedBeforeDestroyed cleanup_dual_view .egoCam ∧
    stoppedBeforeDestroyed cleanup_dual_view .birdCam ∧
    ¬ stoppedBeforeDestroyed cleanup_traces .egoCam ∧
    ¬ stoppedBeforeDestroyed cleanup_traces .birdCam ∧
    ¬ stoppedBeforeDestroyed cleanup_splitting .egoCam ∧
    ¬ stoppedBeforeDestroyed cleanup_splitting .birdCam := by
  decide

/-!
## Teardown idempotence (claim C8)

The client-side semantics of the simulator calls is modelled from the
repository's own usage: `actor.destroy()` fails on an actor that is no
longer alive — the guarded teardown in
ego_npc_dual_view_traffic_light_after_3s.py tests `a.is_alive` before
destroying precisely to avoid that — while `sensor.stop()` merely
disables the callback and is a harmless no-op on an already stopped
sensor.
-/

/-- The client-side state of a spawned actor: whether it is still alive
in the simulator and (for sensors) whether its frame callback is
active. -/
structure ActorState where
  alive : Bool
  listening : Bool
deriving DecidableEq, Repr

/-- `actor.destroy()`: succeeds only while the actor is alive; fails
(`none`, an exception in Python) on an already-destroyed actor. -/
def carlaDestroy (a : ActorState) : Option ActorState :=
  if a.alive then some ⟨false, false⟩ else none

/-- `sensor.stop()`: disables the frame callback; a no-op on an already
stopped sensor. -/
def carlaStop (a : ActorState) : ActorState :=
  { a with listening := false }

/-- The actors destroyed by the demo1.py teardown. -/
structure Demo1Actors where
  camera : ActorState
  ego : ActorState
deriving DecidableEq, Repr

/-- The unguarded `finally` teardown of demo1.py:
`camera.stop(); camera.destroy(); ego_vehicle.destroy()` with no
aliveness guard; `none` models an exception escaping the teardown. -/
def demo1_teardown (s : Demo1Actors) : Option Demo1Actors := do
  let cam := carlaStop s.camera
  let cam ← carlaDestroy cam
  let ego ← carlaDestroy s.ego
  some ⟨cam, ego⟩

/-- The destruction loop of the guarded teardown:
`for a in actors: if a.is_alive: a.destroy()` — destroy exactly the
actors that are still alive, leave the others untouched. -/
def destroyAllAlive : List (Bool × ActorState) → Option (List (Bool × ActorState))
  | [] => some []
  | p :: rest => do
    let a ← if p.2.alive then carlaDestroy p.2 else some p.2
    let tail ← destroyAllAlive rest
    some ((p.1, a) :: tail)

/-- The guarded teardown of ego_npc_dual_view_traffic_light_after_3s.py
over its actors list (each actor tagged with whether it is a sensor):
stop every sensor, then destroy exactly the actors that are still alive. -/
def guarded_teardown (actors : List (Bool × ActorState)) :
    Option (List (Bool × ActorState)) :=
  destroyAllAlive (actors.map (fun p => if p.1 then (p.1, carlaStop p.2) else p))

theorem destroyAllAlive_isSome (l : List (Bool × ActorState)) :
    (destroyAllAlive l).isSome := by
  induction l with
  | nil => rfl
  | cons p rest ih =>
    rw [destroyAllAlive]
    obtain ⟨r, hr⟩ := Option.isSome_iff_exists.mp ih
    by_cases hp : p.2.alive = true
    · simp [hp, carlaDestroy, hr]
    · simp [hp, hr]

theorem guarded_teardown_isSome (actors : List (Bool × ActorState)) :
    (guarded_teardown actors).isSome :=
  destroyAllAlive_isSome _

/-- Claim C8 evaluated on the code: the unguarded demo1.py teardown run
from the initial state (listening camera, alive ego) succeeds and leaves
every actor destroyed, but running it a second time from that resulting
state fails (`camera.destroy()` on a destroyed actor); the guarded
teardown of ego_npc_dual_view_traffic_light_after_3s.py, by contrast,
never fails, whatever state — including already-destroyed actors or an
empty actors list — it is invoked on. -/
theorem C8_double_teardown :
    demo1_teardown ⟨⟨true, true⟩, ⟨true, false⟩⟩ =
      some ⟨⟨false, false⟩, ⟨false, false⟩⟩ ∧
    demo1_teardown ⟨⟨false, false⟩, ⟨false, false⟩⟩ = none ∧
    (∀ actors : List (Bool × ActorState), (guarded_teardown actors).isSome) :=
  ⟨rfl, rfl, guarded_teardown_isSome⟩

/-!
## The single-slot frame buffer (claim C9)

The buffer is the closure variable `surface`, initialised to `None`,
overwritten wholesale by the sensor callback (`process_image`) and read
non-blockingly by the render loop (`if surface is not None:
display.blit(surface, ...)`).
-/

/-- A delivered camera frame, identified by its sequence id. -/
abbrev Frame := ℕ

/-- A producer event on the buffer: the sensor callback publishing a
frame. -/
inductive BufferEvent where
  | publish (f : Frame)
deriving DecidableEq, Repr

/-- The slot contents after one event. -/
def applyEvent (s : Option Frame) (e : BufferEvent) : Option Frame :=
  match s, e with
  | _, .publish f => some f

/-- The slot contents after a sequence of producer events, starting from
the initial `surface = None`. -/
def bufferAfter (evs : List BufferEvent) : Option Frame :=
  evs.foldl applyEvent none

/-- The renderer step of each loop iteration: blit the current frame if
one is present, render nothing for it otherwise. -/
def renderBlits (s : Option Frame) : List Frame :=
  match s with
  | none => []
  | some f => [f]

/-- Claim C9: a read before any publish yields the empty value (never an
error) and the renderer blits nothing for it; after a publish the buffer
holds exactly the published frame — regardless of earlier history —
until the next publish replaces it. -/
theorem C9_frame_buffer (evs tail : List BufferEvent) (f : Frame) :
    bufferAfter [] = none ∧
    renderBlits (bufferAfter []) = [] ∧
    bufferAfter (evs ++ [.publish f]) = some f ∧
    renderBlits (bufferAfter (evs ++ [.publish f])) = [f] ∧
    bufferAfter (evs ++ .publish f :: tail) =
      bufferAfter (.publish f :: tail) := by
  refine ⟨rfl, rfl, ?_, ?_, ?_⟩
  · simp [bufferAfter, List.foldl_append, applyEvent]
  · simp [bufferAfter, renderBlits, List.foldl_append, applyEvent]
  · simp [bufferAfter, List.foldl_append, List.foldl_cons, applyEvent]

/-!
## `spawn_vehicle_safe` (src/ego_npc_dual_view_traffic_light_after_3s.py)
-/

/-- The retry loop of `spawn_vehicle_safe`:
`for i in range(...): v = world.try_spawn_actor(blueprint, pts[i]);
if v: return v, pts[i]` — the first successful spawn among the
candidates, paired with the candidate transform used. -/
def firstSpawnHit {V T : Type} (trySpawn : T → Option V) :
    List T → Option (V × T)
  | [] => none
  | t :: rest =>
    match trySpawn t with
    | some v => some (v, t)
    | none => firstSpawnHit trySpawn rest

/-- `spawn_vehicle_safe(world, blueprint, spawn_points, tries=40)`.
`random.shuffle(spawn_points)` permutes the caller's list in place and
is modelled by the `shuffle` argument (an arbitrary reordering; the
theorem carries the permutation property as a hypothesis);
`world.try_spawn_actor(blueprint, ·)` is the simulator oracle
`trySpawn`.  The loop tries the first `min tries (length)` candidates of
the shuffled list.  The left component of the result is the caller's
list after the call (the shuffled list); the rest is the returned pair —
`(v, transform)` on success, `(None, None)` if every attempt failed. -/
def spawn_vehicle_safe {V T : Type} (trySpawn : T → Option V)
    (shuffle : List T → List T) (spawn_points : List T) (tries : ℕ) :
    List T × Option V × Option T :=
  let pts := shuffle spawn_points
  match firstSpawnHit trySpawn (pts.take (min tries pts.length)) with
  | some (v, t) => (pts, some v, some t)
  | none => (pts, none, none)

theorem firstSpawnHit_some {V T : Type} (trySpawn : T → Option V)
    (l : List T) (v : V) (t : T)
    (h : firstSpawnHit trySpawn l = some (v, t)) :
    trySpawn t = some v ∧ t ∈ l := by
  induction l with
  | nil => simp [firstSpawnHit] at h
  | cons a rest ih =>
    cases hA : trySpawn a with
    | some v0 =>
      rw [firstSpawnHit, hA] at h
      injection h with h
      injection h with h1 h2
      subst h1
      subst h2
      exact ⟨hA, List.mem_cons_self a rest⟩
    | none =>
      rw [firstSpawnHit, hA] at h
      obtain ⟨h1, h2⟩ := ih h
      exact ⟨h1, List.mem_cons_of_mem a h2⟩

theorem firstSpawnHit_none {V T : Type} (trySpawn : T → Option V)
    (l : List T) (h : firstSpawnHit trySpawn l = none) :
    ∀ t ∈ l, trySpawn t = none := by
  induction l with
  | nil => simp
  | cons a rest ih =>
    intro t ht
    cases hA : trySpawn a with
    | some v0 => rw [firstSpawnHit, hA] at h; exact absurd h (by simp)
    | none =>
      rw [firstSpawnHit, hA] at h
      rcases List.mem_cons.mp ht with h1 | h1
      · subst h1; exact hA
      · exact ih h t h1

/-- Claim C10: `spawn_vehicle_safe` leaves the caller's list permuted
(shuffled in place), attempts at most `min tries (length)` candidates,
and returns either a spawned vehicle paired with the exact candidate
transform it was spawned at (a transform among the attempted prefix on
which the oracle succeeds) or `(None, None)` when every attempted
candidate fails. -/
theorem C10_spawn_vehicle_safe {V T : Type} (trySpawn : T → Option V)
    (shuffle : List T → List T) (spawn_points : List T) (tries : ℕ)
    (hperm : (shuffle spawn_points).Perm spawn_points) :
    (spawn_vehicle_safe trySpawn shuffle spawn_points tries).1.Perm spawn_points ∧
    (∀ v t,
      (spawn_vehicle_safe trySpawn shuffle spawn_points tries).2.1 = some v →
      (spawn_vehicle_safe trySpawn shuffle spawn_points tries).2.2 = some t →
        trySpawn t = some v ∧
        t ∈ (shuffle spawn_points).take
              (min tries (shuffle spawn_points).length)) ∧
    ((spawn_vehicle_safe trySpawn shuffle spawn_points tries).2.1 = none →
      (spawn_vehicle_safe trySpawn shuffle spawn_points tries).2.2 = none ∧
      ∀ t ∈ (shuffle spawn_points).take
              (min tries (shuffle spawn_points).length),
        trySpawn t = none) := by
  unfold spawn_vehicle_safe
  cases hF : firstSpawnHit trySpawn
      ((shuffle spawn_points).take (min tries (shuffle spawn_points).length)) with
  | some p =>
    obtain ⟨v0, t0⟩ := p
    simp only [hF]
    refine ⟨hperm, ?_, ?_⟩
    · intro v t hv ht
      injection hv with hv
      injection ht with ht
      subst hv
      subst ht
      exact firstSpawnHit_some trySpawn _ v0 t0 hF
    · intro hn
      exact absurd hn (by simp)
  | none =>
    simp only [hF]
    refine ⟨hperm, ?_, ?_⟩
    · intro v t hv _
      exact absurd hv (by simp)
    · intro _
      exact ⟨by simp, firstSpawnHit_none trySpawn _ hF⟩

/-- The spawn oracle used by the C10 witness: only transform 2 admits a
spawn, producing vehicle 10. -/
def trySpawnOnlyAtTwo : ℕ → Option ℕ :=
  fun t => if t = 2 then some 10 else none

/-- Witness for C10: shuffling `[1, 2, 3]` by reversal and allowing at
most 2 attempts, the helper returns vehicle 10 spawned at transform 2
(the second candidate of the reversed list) and leaves the caller's
list as a permutation of the original. -/
theorem C10_spawn_vehicle_safe_witness :
    (List.reverse [1, 2, 3]).Perm [1, 2, 3] ∧
    ((spawn_vehicle_safe trySpawnOnlyAtTwo List.reverse [1, 2, 3] 2).1.Perm [1, 2, 3] ∧
     (∀ v t,
       (spawn_vehicle_safe trySpawnOnlyAtTwo List.reverse [1, 2, 3] 2).2.1 = some v →
       (spawn_vehicle_safe trySpawnOnlyAtTwo List.reverse [1, 2, 3] 2).2.2 = some t →
         trySpawnOnlyAtTwo t = some v ∧
         t ∈ (List.reverse [1, 2, 3]).take
               (min 2 (List.reverse [1, 2, 3]).length)) ∧
     ((spawn_vehicle_safe trySpawnOnlyAtTwo List.reverse [1, 2, 3] 2).2.1 = none →
       (spawn_vehicle_safe trySpawnOnlyAtTwo List.reverse [1, 2, 3] 2).2.2 = none ∧
       ∀ t ∈ (List.reverse [1, 2, 3]).take
               (min 2 (List.reverse [1, 2, 3]).length),
         trySpawnOnlyAtTwo t = none)) :=
  ⟨by decide,
   C10_spawn_vehicle_safe trySpawnOnlyAtTwo List.reverse [1, 2, 3] 2 (by decide)⟩
